import Mathlib

/-!
Shallow embedding of `file-per-thread-logger` (src/src/lib.rs), a logging
backend that routes each log record to one output file per originating
thread.

Modelling conventions:
* Thread-local storage (`thread_local! static WRITER`) is modelled as a map
  `Nat → Option Writer` from thread ids to the optional buffered sink, kept
  in a process-wide state record `Sys` together with the per-thread `RefCell`
  borrow flag, the global logger slot (`log::set_boxed_logger`), the
  `ALLOW_UNINITIALIZED` atomic and the `RUST_LOG` environment variable.
* A `RefCell` borrow conflict (`borrow_mut` while already mutably borrowed)
  and an `expect` failure are panics, modelled with `Except String`.
* `env_logger`s directive parsing (`Builder::parse_filters`) is an external
  collaborator; it is passed in as an abstract function
  `parse : String → Level → String → Bool` producing the filter predicate
  used by `Logger::enabled`.
* File creation (`File::create`) always succeeds in the model; creation
  events are recorded, in order, in `Sys.filesCreated`. `File::create`
  failure aborts the thread in the source and is out of modelled scope.
* Each successful `writeln!` appends one string, terminated by a newline
  character, to `Writer.lines`; the file contents are the concatenation of
  those strings. `Writer.flushedLen` counts the lines already pushed to
  durable storage by `flush`.
* A custom format function (`FormatFn`) is arbitrary user code; it is
  modelled by `FmtModel`, which captures the one protocol choice the source
  documents: whether the formatter reifies `record.args()` before taking the
  writer with `GetWriter::get` (`reifyFirst = true`, the documented
  discipline) or takes the writer first (`reifyFirst = false`, the
  documented double-borrow hazard), plus the line it renders.
* Rendering a record's arguments (`format!("{}", record.args())`) may itself
  issue nested log calls; a `LogRecord` therefore carries the list of
  records its message rendering logs, in order, through the facade.
-/

namespace FPTL

/-- The five `log::Level` severities. -/
inductive Level where
  | error
  | warn
  | info
  | debug
  | trace
deriving DecidableEq, Repr

/-- Display rendering of a level, as used by `writeln!("{} - {}", record.level(), args)`. -/
def Level.render : Level → String
  | .error => "ERROR"
  | .warn => "WARN"
  | .info => "INFO"
  | .debug => "DEBUG"
  | .trace => "TRACE"

/-- A thread identity: the key of the thread-local map, the optional display
name (`Thread::name`) and the `Debug` rendering of the `ThreadId`
(`format!("{:?}", curthread.id())`). -/
structure Thread where
  tid : Nat
  name : Option String
  idStr : String
deriving DecidableEq, Repr

/-- A log record: severity, target (module path), the reified message text,
and the nested records that rendering the message itself logs (reentrant log
calls issued by `record.args()`). -/
inductive LogRecord where
  | mk (level : Level) (target : String) (text : String) (nested : List LogRecord)

def LogRecord.level : LogRecord → Level
  | .mk l _ _ _ => l

def LogRecord.target : LogRecord → String
  | .mk _ tg _ _ => tg

def LogRecord.text : LogRecord → String
  | .mk _ _ tx _ => tx

def LogRecord.nested : LogRecord → List LogRecord
  | .mk _ _ _ ns => ns

/-- Model of a custom `FormatFn`: whether it reifies the message before
taking the writer (the discipline the source documents), and the line it
renders from the record's level and reified text. -/
structure FmtModel where
  reifyFirst : Bool
  render : Level → String → String

/-- The installed `FilePerThreadLogger`: the `env_logger::Logger` reduced to
its filter predicate (`Logger::enabled` over level and target), and the
optional custom format function. -/
structure Backend where
  filter : Level → String → Bool
  formatter : Option FmtModel

/-- A thread's buffered sink (`io::BufWriter<File>`): the path it was created
at, the newline-terminated lines written so far, and how many of those lines
`flush` has pushed to durable storage. -/
structure Writer where
  path : String
  lines : List String
  flushedLen : Nat
deriving DecidableEq, Repr

/-- The whole process state. -/
structure Sys where
  rustLog : Option String
  slot : Option Backend
  allowUninit : Bool
  writers : Nat → Option Writer
  borrowed : Nat → Bool
  filesCreated : List String

/-- Panic message for a `RefCell` double borrow. -/
def doubleBorrowMsg : String := "already mutably borrowed"

/-- Panic message for the source's `expect` on a missing writer (the source
text is: call the logger initialize() function first). -/
def uninitMsg : String := "call the logger initialize() function first"

/-- The character filter of `open_file`:
`ch.is_alphanumeric() || *ch == '-' || *ch == '_'`. -/
def allowedChar (c : Char) : Bool := c.isAlphanum || c = '-' || c = '_'

/-- `curthread.name()` when set, else the `Debug` rendering of the id. -/
def nameOrId (t : Thread) : String :=
  match t.name with
  | some n => n
  | none => t.idStr

/-- The path built by `open_file`: the caller-supplied file name part used
verbatim, extended with the filtered characters of the thread name (or of the
id rendering when the thread is unnamed). -/
def openFilePath (t : Thread) (pfx : String) : String :=
  pfx ++ ((nameOrId t).toList.filter allowedChar).asString

/-- `open_file` + storing the fresh `BufWriter` in the thread-local slot:
creates the file (recording the creation event) and binds an empty writer to
the calling thread. -/
def createWriter (t : Thread) (pfx : String) (s : Sys) : Sys :=
  let p := openFilePath t pfx
  { s with
    writers := fun i => if i = t.tid then some ⟨p, [], 0⟩ else s.writers i
    filesCreated := s.filesCreated ++ [p] }

/-- Append one newline-terminated line to the calling thread's writer
(a successful `writeln!`). -/
def writeLine (tid : Nat) (line : String) (s : Sys) : Sys :=
  { s with
    writers := fun i =>
      if i = tid then
        (s.writers tid).map (fun w => { w with lines := w.lines ++ [line ++ "\n"] })
      else s.writers i }

/-- Set or clear the calling thread's `RefCell` mutable-borrow flag. -/
def setBorrowed (tid : Nat) (b : Bool) (s : Sys) : Sys :=
  { s with borrowed := fun i => if i = tid then b else s.borrowed i }

/-- The line written by the default format branch:
`writeln!(*writer, "{} - {}", record.level(), args)`. -/
def writtenLine (lvl : Level) (txt : String) : String :=
  lvl.render ++ " - " ++ txt

/-- The `ALLOW_UNINITIALIZED` block at the head of `log`'s `WRITER.with`
closure: when the flag is set, `borrow_mut` the thread-local slot (a panic if
the calling thread already holds the borrow) and lazily create the writer
with an empty file name part when none is bound yet. -/
def uninitBlock (t : Thread) (s : Sys) : Except String Sys :=
  if s.allowUninit then
    if s.borrowed t.tid then Except.error doubleBorrowMsg
    else if (s.writers t.tid).isNone then Except.ok (createWriter t "" s)
    else Except.ok s
  else Except.ok s

mutual

/-- `FilePerThreadLogger::log` for one record, on thread `t`, with installed
backend `b`. Follows the source order: the `enabled` check, the
`ALLOW_UNINITIALIZED` block (a `borrow_mut` that lazily creates the writer
with an empty name part), then either the custom format function or the
default branch, which reifies the message (running the nested log calls it
issues, each through the same backend) before borrowing the writer. -/
def logRec (b : Backend) (t : Thread) (s : Sys) : LogRecord → Except String Sys
  | .mk lvl tgt txt ns =>
    if b.filter lvl tgt = false then .ok s
    else do
      let s ← uninitBlock t s
      match b.formatter with
      | some f =>
        if f.reifyFirst then do
          let s ← logNested b t s ns
          if s.borrowed t.tid then Except.error doubleBorrowMsg
          else
            match s.writers t.tid with
            | none => Except.error uninitMsg
            | some _ => Except.ok (writeLine t.tid (f.render lvl txt) s)
        else
          if s.borrowed t.tid then Except.error doubleBorrowMsg
          else
            match s.writers t.tid with
            | none => Except.error uninitMsg
            | some _ => do
              let s := setBorrowed t.tid true s
              let s ← logNested b t s ns
              let s := writeLine t.tid (f.render lvl txt) s
              Except.ok (setBorrowed t.tid false s)
      | none => do
        let s ← logNested b t s ns
        if s.borrowed t.tid then Except.error doubleBorrowMsg
        else
          match s.writers t.tid with
          | none => Except.error uninitMsg
          | some _ => Except.ok (writeLine t.tid (writtenLine lvl txt) s)

/-- Run the nested log calls issued while reifying a message, in order. -/
def logNested (b : Backend) (t : Thread) (s : Sys) : List LogRecord → Except String Sys
  | [] => .ok s
  | r :: rest => do
    let s ← logRec b t s r
    logNested b t s rest

end

/-- The `log` facade: a record emitted on thread `t` reaches the installed
backend, or is dropped when no backend is installed. -/
def facadeLog (t : Thread) (r : LogRecord) (s : Sys) : Except String Sys :=
  match s.slot with
  | none => .ok s
  | some b => logRec b t s r

/-- Run a trace of log emissions (thread, record), in order, through the
facade. -/
def runTrace (events : List (Thread × LogRecord)) (s : Sys) : Except String Sys :=
  match events with
  | [] => .ok s
  | (t, r) :: rest => do
    let s ← facadeLog t r s
    runTrace rest s

/-- `FilePerThreadLogger::flush`: borrow the calling thread's writer
(`expect` panics when none is bound, with no `ALLOW_UNINITIALIZED` check) and
flush it. -/
def flushOp (t : Thread) (s : Sys) : Except String Sys :=
  if s.borrowed t.tid then .error doubleBorrowMsg
  else
    match s.writers t.tid with
    | none => .error uninitMsg
    | some w =>
      .ok { s with
            writers := fun i =>
              if i = t.tid then some { w with flushedLen := w.lines.length }
              else s.writers i }

/-- The banner record logged at the end of `init_logging`:
`log::info!("Set up logging; filename prefix is {}", filename_prefix)`,
with the crate module path as target. -/
def bannerRec (pfx : String) : LogRecord :=
  .mk .info "file_per_thread_logger" ("Set up logging; filename prefix is " ++ pfx) []

/-- `init_logging` (the body of `initialize` and `initialize_with_formatter`):
returns at once when `RUST_LOG` is unset; otherwise parses the directives,
ensures a writer is bound to the calling thread (creating one only when none
exists), installs the new backend only when the global slot is still empty
(`log::set_boxed_logger` fails otherwise and the failure is discarded), then
logs the banner through the facade. -/
def initLogging (parse : String → Level → String → Bool) (t : Thread)
    (pfx : String) (fmt : Option FmtModel) (s : Sys) : Except String Sys :=
  match s.rustLog with
  | none => .ok s
  | some dir =>
    if s.borrowed t.tid then .error doubleBorrowMsg
    else
      let s1 := if (s.writers t.tid).isSome then s else createWriter t pfx s
      let s2 := if s1.slot.isSome then s1 else { s1 with slot := some ⟨parse dir, fmt⟩ }
      facadeLog t (bannerRec pfx) s2

/-- `allow_uninitialized`: set the process-wide flag. -/
def allowUninitialized (s : Sys) : Sys := { s with allowUninit := true }

end FPTL

namespace FPTL

/-! ### Frame lemmas about the elementary state transformers -/

@[simp] lemma writeLine_slot (tid : Nat) (l : String) (s : Sys) :
    (writeLine tid l s).slot = s.slot := rfl

@[simp] lemma writeLine_rustLog (tid : Nat) (l : String) (s : Sys) :
    (writeLine tid l s).rustLog = s.rustLog := rfl

@[simp] lemma writeLine_allowUninit (tid : Nat) (l : String) (s : Sys) :
    (writeLine tid l s).allowUninit = s.allowUninit := rfl

@[simp] lemma writeLine_borrowed (tid : Nat) (l : String) (s : Sys) :
    (writeLine tid l s).borrowed = s.borrowed := rfl

@[simp] lemma writeLine_filesCreated (tid : Nat) (l : String) (s : Sys) :
    (writeLine tid l s).filesCreated = s.filesCreated := rfl

lemma writeLine_writers_ne (tid i : Nat) (l : String) (s : Sys) (h : i ≠ tid) :
    (writeLine tid l s).writers i = s.writers i := by
  simp [writeLine, h]

lemma writeLine_writers_self (tid : Nat) (l : String) (s : Sys) :
    (writeLine tid l s).writers tid =
      (s.writers tid).map (fun w => { w with lines := w.lines ++ [l ++ "\n"] }) := by
  simp [writeLine]

lemma writeLine_writers_isSome (tid i : Nat) (l : String) (s : Sys) :
    ((writeLine tid l s).writers i).isSome = (s.writers i).isSome := by
  by_cases h : i = tid
  · subst h; simp [writeLine_writers_self]
  · rw [writeLine_writers_ne _ _ _ _ h]

@[simp] lemma createWriter_slot (t : Thread) (p : String) (s : Sys) :
    (createWriter t p s).slot = s.slot := rfl

@[simp] lemma createWriter_borrowed (t : Thread) (p : String) (s : Sys) :
    (createWriter t p s).borrowed = s.borrowed := rfl

@[simp] lemma createWriter_allowUninit (t : Thread) (p : String) (s : Sys) :
    (createWriter t p s).allowUninit = s.allowUninit := rfl

@[simp] lemma createWriter_rustLog (t : Thread) (p : String) (s : Sys) :
    (createWriter t p s).rustLog = s.rustLog := rfl

lemma createWriter_writers_self (t : Thread) (p : String) (s : Sys) :
    (createWriter t p s).writers t.tid = some ⟨openFilePath t p, [], 0⟩ := by
  simp [createWriter]

lemma createWriter_writers_ne (t : Thread) (p : String) (s : Sys) (i : Nat) (h : i ≠ t.tid) :
    (createWriter t p s).writers i = s.writers i := by
  simp [createWriter, h]

@[simp] lemma createWriter_filesCreated (t : Thread) (p : String) (s : Sys) :
    (createWriter t p s).filesCreated = s.filesCreated ++ [openFilePath t p] := rfl

/-! ### C3 — sink path naming -/

/-- The sanitization described by the spec: keep exactly the alphanumeric
characters, the hyphen and the underscore, and discard every other
character. -/
def sanitizeSpec (name : String) : String :=
  (name.toList.filter (fun c => c.isAlphanum || c = '-' || c = '_')).asString

/-- C3: for every thread and caller-supplied name part, the sink file path
is the caller-supplied part used verbatim, concatenated with the sanitized
thread display name — or, for an unnamed thread, with the sanitized textual
rendering of the thread identifier — where sanitization keeps exactly the
alphanumeric characters, the hyphen and the underscore. -/
theorem claim3_sink_path :
    (∀ (t : Thread) (pfx : String),
        openFilePath t pfx = pfx ++ sanitizeSpec (nameOrId t)) ∧
    (∀ (tid : Nat) (n : String) (idStr : String) (pfx : String),
        openFilePath ⟨tid, some n, idStr⟩ pfx = pfx ++ sanitizeSpec n) ∧
    (∀ (tid : Nat) (idStr : String) (pfx : String),
        openFilePath ⟨tid, none, idStr⟩ pfx = pfx ++ sanitizeSpec idStr) ∧
    (∀ name : String,
        (sanitizeSpec name).toList =
          name.toList.filter (fun c => c.isAlphanum || c = '-' || c = '_')) := by
  exact ⟨fun t pfx => rfl, fun tid n idStr pfx => rfl, fun tid idStr pfx => rfl,
    fun name => rfl⟩

/-! ### C10 — records rejected by the filter are complete no-ops -/

/-- C10: a record the installed filter rejects makes `log` return immediately
with the whole state untouched — no panic, no file creation, no change to any
thread's sink — whatever the thread-local and process state (in particular on
an uninitialized thread with the uninitialized policy unset). -/
theorem claim10_disabled_record_noop (b : Backend) (t : Thread) (s : Sys)
    (lvl : Level) (tgt txt : String) (ns : List LogRecord)
    (hdis : b.filter lvl tgt = false) :
    logRec b t s (.mk lvl tgt txt ns) = .ok s := by
  simp [logRec, hdis]

/-- Witness for C10 at a concrete disabled record on an uninitialized
thread. -/
theorem claim10_witness :
    logRec ⟨fun _ _ => false, none⟩ ⟨0, none, "ThreadId(1)"⟩
        ⟨none, none, false, fun _ => none, fun _ => false, []⟩
        (.mk .debug "m" "dropped" []) =
      .ok ⟨none, none, false, fun _ => none, fun _ => false, []⟩ :=
  claim10_disabled_record_noop _ _ _ _ _ _ _ rfl

end FPTL

namespace FPTL

@[simp] lemma ok_bind {α β : Type} (a : α) (f : α → Except String β) :
    (Except.ok a >>= f) = f a := rfl

@[simp] lemma error_bind {α β : Type} (e : String) (f : α → Except String β) :
    ((Except.error e : Except String α) >>= f) = Except.error e := rfl

@[simp] lemma setBorrowed_slot (tid : Nat) (v : Bool) (s : Sys) :
    (setBorrowed tid v s).slot = s.slot := rfl

@[simp] lemma setBorrowed_rustLog (tid : Nat) (v : Bool) (s : Sys) :
    (setBorrowed tid v s).rustLog = s.rustLog := rfl

@[simp] lemma setBorrowed_allowUninit (tid : Nat) (v : Bool) (s : Sys) :
    (setBorrowed tid v s).allowUninit = s.allowUninit := rfl

@[simp] lemma setBorrowed_filesCreated (tid : Nat) (v : Bool) (s : Sys) :
    (setBorrowed tid v s).filesCreated = s.filesCreated := rfl

@[simp] lemma setBorrowed_writers (tid : Nat) (v : Bool) (s : Sys) :
    (setBorrowed tid v s).writers = s.writers := rfl

@[simp] lemma setBorrowed_borrowed_self (tid : Nat) (v : Bool) (s : Sys) :
    (setBorrowed tid v s).borrowed tid = v := by
  simp [setBorrowed]

/-- When the calling thread already has a writer and does not hold the
borrow, the `ALLOW_UNINITIALIZED` block changes nothing, whatever the
flag. -/
lemma uninitBlock_of_isSome (t : Thread) (s : Sys)
    (hw : (s.writers t.tid).isSome) (hb : s.borrowed t.tid = false) :
    uninitBlock t s = .ok s := by
  obtain ⟨w, hw'⟩ := Option.isSome_iff_exists.mp hw
  cases hA : s.allowUninit <;> simp [uninitBlock, hA, hb, hw']

/-- The `ALLOW_UNINITIALIZED` block on a thread with no writer: a no-op when
the flag is unset, the lazy empty-name-part creation when it is set. -/
lemma uninitBlock_of_none (t : Thread) (s : Sys)
    (hw : s.writers t.tid = none) (hb : s.borrowed t.tid = false) :
    uninitBlock t s = .ok (if s.allowUninit then createWriter t "" s else s) := by
  cases hA : s.allowUninit <;> simp [uninitBlock, hA, hb, hw]

/-! ### C7 — empty filter directive disables everything -/

/-- C7: an `initialize` call that observes an unset `RUST_LOG` returns with
the whole state untouched (no installation, no file creation, no change at
all); and, no backend having been installed, any number of later log
emissions also leave the state untouched, so zero log files are ever
created. -/
theorem claim7_disabled_no_files (parse : String → Level → String → Bool)
    (t : Thread) (pfx : String) (fmt : Option FmtModel) (s : Sys)
    (henv : s.rustLog = none) (hslot : s.slot = none) :
    initLogging parse t pfx fmt s = .ok s ∧
    ∀ events : List (Thread × LogRecord), runTrace events s = .ok s := by
  constructor
  · simp [initLogging, henv]
  · intro events
    induction events with
    | nil => rfl
    | cons e rest ih =>
      obtain ⟨t', r⟩ := e
      simp [runTrace, facadeLog, hslot, ih]

/-- Witness for C7: a concrete uninstalled state with `RUST_LOG` unset, a
concrete `initialize` call and a concrete two-event log trace. -/
theorem claim7_witness :
    initLogging (fun _ _ _ => true) ⟨0, some "main", "ThreadId(1)"⟩ "p-" none
        ⟨none, none, false, fun _ => none, fun _ => false, []⟩ =
      .ok ⟨none, none, false, fun _ => none, fun _ => false, []⟩ ∧
    ∀ events : List (Thread × LogRecord),
      runTrace events ⟨none, none, false, fun _ => none, fun _ => false, []⟩ =
        .ok ⟨none, none, false, fun _ => none, fun _ => false, []⟩ :=
  claim7_disabled_no_files _ _ _ _ _ rfl rfl

/-! ### C9 — flush -/

/-- Counterexample to C9 as stated: on a thread with no bound sink but with
the uninitialized-thread policy active (`ALLOW_UNINITIALIZED` set), `flush`
still panics with the missing-writer `expect` message — the policy is not
consulted by `flush`, so the call is *not* excused by it. -/
theorem claim9_cex :
    (Sys.mk none none true (fun _ => none) (fun _ => false) []).allowUninit = true ∧
    flushOp ⟨0, none, "ThreadId(1)"⟩
        (Sys.mk none none true (fun _ => none) (fun _ => false) []) =
      .error uninitMsg :=
  ⟨rfl, rfl⟩

/-- C9 (amended): `flush` touches only the calling thread's sink — it marks
that sink's buffered lines flushed and leaves every other thread's sink, the
global slot and the created-file list unchanged — and whenever no sink is
bound to the calling thread it panics with the missing-writer `expect`
message, regardless of the `ALLOW_UNINITIALIZED` policy. -/
theorem claim9_flush (t : Thread) (s : Sys) (hb : s.borrowed t.tid = false) :
    (∀ w, s.writers t.tid = some w →
      ∃ s', flushOp t s = .ok s' ∧
        s'.writers t.tid = some { w with flushedLen := w.lines.length } ∧
        (∀ i, i ≠ t.tid → s'.writers i = s.writers i) ∧
        s'.slot = s.slot ∧ s'.rustLog = s.rustLog ∧
        s'.allowUninit = s.allowUninit ∧ s'.borrowed = s.borrowed ∧
        s'.filesCreated = s.filesCreated) ∧
    (s.writers t.tid = none → flushOp t s = .error uninitMsg) := by
  constructor
  · intro w hw
    refine ⟨{ s with writers := fun i =>
        if i = t.tid then some { w with flushedLen := w.lines.length }
        else s.writers i }, ?_, ?_, ?_, rfl, rfl, rfl, rfl, rfl⟩
    · simp [flushOp, hb, hw]
    · simp
    · intro i hi
      simp [hi]
  · intro hw
    simp [flushOp, hb, hw]

/-- Witness for C9 (amended) at a concrete state holding a writer on thread
0 and nothing on thread 1. -/
theorem claim9_witness :
    (∀ w, (Sys.mk none none false
            (fun i => if i = 0 then some ⟨"p-main", ["INFO - x\n"], 0⟩ else none)
            (fun _ => false) ["p-main"]).writers 0 = some w →
      ∃ s', flushOp ⟨0, some "main", "ThreadId(1)"⟩
          (Sys.mk none none false
            (fun i => if i = 0 then some ⟨"p-main", ["INFO - x\n"], 0⟩ else none)
            (fun _ => false) ["p-main"]) = .ok s' ∧
        s'.writers 0 = some { w with flushedLen := w.lines.length } ∧
        (∀ i, i ≠ 0 → s'.writers i =
          (Sys.mk none none false
            (fun i => if i = 0 then some ⟨"p-main", ["INFO - x\n"], 0⟩ else none)
            (fun _ => false) ["p-main"]).writers i) ∧
        s'.slot = none ∧ s'.rustLog = none ∧
        s'.allowUninit = false ∧
        s'.borrowed = (fun _ => false) ∧
        s'.filesCreated = ["p-main"]) ∧
    ((Sys.mk none none false
        (fun i => if i = 0 then some ⟨"p-main", ["INFO - x\n"], 0⟩ else none)
        (fun _ => false) ["p-main"]).writers 0 = none →
      flushOp ⟨0, some "main", "ThreadId(1)"⟩
        (Sys.mk none none false
          (fun i => if i = 0 then some ⟨"p-main", ["INFO - x\n"], 0⟩ else none)
          (fun _ => false) ["p-main"]) = .error uninitMsg) :=
  claim9_flush ⟨0, some "main", "ThreadId(1)"⟩ _ rfl

end FPTL

namespace FPTL

/-! ### The default-format log path -/

/-- The newline-terminated lines the default format branch writes for a list
of records, keeping exactly the records the installed filter admits, in
order. -/
def nsLines (b : Backend) : List LogRecord → List String
  | [] => []
  | n :: rest =>
    if b.filter n.level n.target then
      (writtenLine n.level n.text ++ "\n") :: nsLines b rest
    else nsLines b rest

@[simp] lemma LogRecord.level_mk (l : Level) (tg tx : String) (ns : List LogRecord) :
    (LogRecord.mk l tg tx ns).level = l := rfl

@[simp] lemma LogRecord.target_mk (l : Level) (tg tx : String) (ns : List LogRecord) :
    (LogRecord.mk l tg tx ns).target = tg := rfl

@[simp] lemma LogRecord.text_mk (l : Level) (tg tx : String) (ns : List LogRecord) :
    (LogRecord.mk l tg tx ns).text = tx := rfl

@[simp] lemma LogRecord.nested_mk (l : Level) (tg tx : String) (ns : List LogRecord) :
    (LogRecord.mk l tg tx ns).nested = ns := rfl

/-- One flat record (no nested log calls) through `log` with the default
formatter, on a thread that has a writer and does not hold the borrow: the
record is dropped when the filter rejects it and written as
`"<LEVEL> - <text>\n"` otherwise. -/
lemma logRec_flat_default (b : Backend) (t : Thread) (s : Sys)
    (lvl : Level) (tgt txt : String)
    (hfmt : b.formatter = none) (hw : (s.writers t.tid).isSome)
    (hb : s.borrowed t.tid = false) :
    logRec b t s (.mk lvl tgt txt []) =
      .ok (if b.filter lvl tgt then writeLine t.tid (writtenLine lvl txt) s else s) := by
  obtain ⟨w, hw'⟩ := Option.isSome_iff_exists.mp hw
  cases hf : b.filter lvl tgt
  · simp [logRec, hf]
  · simp [logRec, hf, uninitBlock_of_isSome t s hw hb, hfmt, logNested, hb, hw']

/-- A list of flat records through the reification step (`logNested`) with
the default formatter: every admitted record is appended, in order, to the
calling thread's writer, and nothing else in the state changes. -/
lemma logNested_flat (b : Backend) (t : Thread) (ns : List LogRecord) :
    ∀ s : Sys, b.formatter = none → (s.writers t.tid).isSome →
      s.borrowed t.tid = false → (∀ n ∈ ns, n.nested = []) →
      ∃ s', logNested b t s ns = .ok s' ∧
        s'.slot = s.slot ∧ s'.rustLog = s.rustLog ∧
        s'.allowUninit = s.allowUninit ∧ s'.borrowed = s.borrowed ∧
        s'.filesCreated = s.filesCreated ∧
        (∀ i, i ≠ t.tid → s'.writers i = s.writers i) ∧
        s'.writers t.tid =
          (s.writers t.tid).map (fun w => { w with lines := w.lines ++ nsLines b ns }) := by
  induction ns with
  | nil =>
    intro s hfmt hw hb _
    refine ⟨s, rfl, rfl, rfl, rfl, rfl, rfl, fun i _ => rfl, ?_⟩
    cases h : s.writers t.tid <;> simp [nsLines]
  | cons n rest ih =>
    intro s hfmt hw hb hflat
    obtain ⟨nl, ntg, ntx, nns⟩ := n
    have hnns : nns = [] := by
      have := hflat _ (List.mem_cons_self _ _)
      simpa [LogRecord.nested] using this
    subst hnns
    obtain ⟨w, hw'⟩ := Option.isSome_iff_exists.mp hw
    have hstep := logRec_flat_default b t s nl ntg ntx hfmt hw hb
    cases hf : b.filter nl ntg
    · rw [hf] at hstep
      simp at hstep
      obtain ⟨s', h1, h2, h3, h4, h5, h6, h7, h8⟩ :=
        ih s hfmt hw hb (fun m hm => hflat m (List.mem_cons_of_mem _ hm))
      refine ⟨s', ?_, h2, h3, h4, h5, h6, h7, ?_⟩
      · simp [logNested, hstep, h1]
      · simpa [nsLines, LogRecord.level, LogRecord.target, hf] using h8
    · rw [hf] at hstep
      simp at hstep
      set s1 := writeLine t.tid (writtenLine nl ntx) s with hs1
      have hw1 : (s1.writers t.tid).isSome := by
        rw [hs1, writeLine_writers_self, hw']
        simp
      have hb1 : s1.borrowed t.tid = false := by
        rw [hs1, writeLine_borrowed]
        exact hb
      obtain ⟨s', h1, h2, h3, h4, h5, h6, h7, h8⟩ :=
        ih s1 hfmt hw1 hb1 (fun m hm => hflat m (List.mem_cons_of_mem _ hm))
      refine ⟨s', ?_, ?_, ?_, ?_, ?_, ?_, ?_, ?_⟩
      · simp [logNested, hstep, h1]
      · rw [h2, hs1, writeLine_slot]
      · rw [h3, hs1, writeLine_rustLog]
      · rw [h4, hs1, writeLine_allowUninit]
      · rw [h5, hs1, writeLine_borrowed]
      · rw [h6, hs1, writeLine_filesCreated]
      · intro i hi
        rw [h7 i hi, hs1, writeLine_writers_ne _ _ _ _ hi]
      · rw [h8, hs1, writeLine_writers_self, hw']
        simp [nsLines, LogRecord.level, LogRecord.target, hf, List.append_assoc]

end FPTL

namespace FPTL

/-! ### C1 — reentrant log calls -/

/-- Counterexample to C1 as stated: with the default formatter, a record
whose message rendering issues a nested log call on the same thread does
*not* get the nested write silently dropped — the nested record is fully
written (before the outer line), so the file holds two lines where the claim
predicts one. -/
theorem claim1_cex :
    (facadeLog ⟨0, some "main", "ThreadId(1)"⟩
        (.mk .info "app" "outer" [.mk .info "app" "inner" []])
        ⟨some "info", some ⟨fun _ _ => true, none⟩, false,
          fun i => if i = 0 then some ⟨"p-main", [], 0⟩ else none,
          fun _ => false, ["p-main"]⟩).map (fun s => (s.writers 0).map Writer.lines) =
      Except.ok (some ["INFO - inner\n", "INFO - outer\n"]) ∧
    (facadeLog ⟨0, some "main", "ThreadId(1)"⟩
        (.mk .info "app" "outer" [.mk .info "app" "inner" []])
        ⟨some "info", some ⟨fun _ _ => true, none⟩, false,
          fun i => if i = 0 then some ⟨"p-main", [], 0⟩ else none,
          fun _ => false, ["p-main"]⟩).map (fun s => (s.writers 0).map Writer.lines) ≠
      Except.ok (some ["INFO - outer\n"]) := by
  refine ⟨rfl, ?_⟩
  intro h
  rw [show (facadeLog ⟨0, some "main", "ThreadId(1)"⟩
        (.mk .info "app" "outer" [.mk .info "app" "inner" []])
        ⟨some "info", some ⟨fun _ _ => true, none⟩, false,
          fun i => if i = 0 then some ⟨"p-main", [], 0⟩ else none,
          fun _ => false, ["p-main"]⟩).map (fun s => (s.writers 0).map Writer.lines) =
      Except.ok (some ["INFO - inner\n", "INFO - outer\n"]) from rfl] at h
  simp at h

/-- C1 (amended): with the default formatter a nested log call issued while
the outer record's message is being rendered is executed in full *before*
the outer write — every admitted nested record is written, then the outer
line; nothing is dropped and no double borrow arises. A custom formatter
that takes the writer before rendering the message (violating the documented
protocol) instead panics on the nested call's double borrow. -/
theorem claim1_reentrant (b : Backend) (t : Thread) (s : Sys)
    (lvl : Level) (tgt txt : String) (ns : List LogRecord)
    (hfmt : b.formatter = none) (hw : (s.writers t.tid).isSome)
    (hb : s.borrowed t.tid = false) (hflat : ∀ n ∈ ns, n.nested = [])
    (hen : b.filter lvl tgt = true) :
    (∃ s', logRec b t s (.mk lvl tgt txt ns) = .ok s' ∧
      s'.writers t.tid = (s.writers t.tid).map
        (fun w => { w with
          lines := w.lines ++ nsLines b ns ++ [writtenLine lvl txt ++ "\n"] })) ∧
    (∀ (f : FmtModel) (n : LogRecord), f.reifyFirst = false →
      b.filter n.level n.target = true → s.allowUninit = false →
      logRec ⟨b.filter, some f⟩ t s (.mk lvl tgt txt [n]) = .error doubleBorrowMsg) := by
  obtain ⟨w, hw'⟩ := Option.isSome_iff_exists.mp hw
  constructor
  · obtain ⟨s1, h1, h2, h3, h4, h5, h6, h7, h8⟩ := logNested_flat b t ns s hfmt hw hb hflat
    have hb1 : s1.borrowed t.tid = false := by rw [h5]; exact hb
    have hw1 : s1.writers t.tid = some { w with lines := w.lines ++ nsLines b ns } := by
      rw [h8, hw']; rfl
    refine ⟨writeLine t.tid (writtenLine lvl txt) s1, ?_, ?_⟩
    · simp [logRec, hen, uninitBlock_of_isSome t s hw hb, hfmt, h1, hb1, hw1]
    · rw [writeLine_writers_self, hw1, hw']
      simp [List.append_assoc]
  · intro f n hrf hen2 hau
    obtain ⟨nlv, ntg2, ntx2, nns2⟩ := n
    simp only [LogRecord.level_mk, LogRecord.target_mk] at hen2
    simp [logRec, logNested, hen, hen2, uninitBlock, hau, hrf, hb, hw']

end FPTL

namespace FPTL

/-- Witness for C1 (amended): a concrete enabled record with one nested
record, on a thread holding a writer, under the default formatter. -/
theorem claim1_witness :
    (∃ s', logRec ⟨fun _ _ => true, none⟩ ⟨0, some "main", "ThreadId(1)"⟩
        ⟨some "info", some ⟨fun _ _ => true, none⟩, false,
          fun i => if i = 0 then some ⟨"p-main", [], 0⟩ else none,
          fun _ => false, ["p-main"]⟩
        (.mk .info "app" "outer" [.mk .info "app" "inner" []]) = .ok s' ∧
      s'.writers 0 = ((⟨some "info", some ⟨fun _ _ => true, none⟩, false,
          fun i => if i = 0 then some ⟨"p-main", [], 0⟩ else none,
          fun _ => false, ["p-main"]⟩ : Sys).writers 0).map
        (fun w => { w with
          lines := w.lines ++
            nsLines ⟨fun _ _ => true, none⟩ [.mk .info "app" "inner" []] ++
            [writtenLine .info "outer" ++ "\n"] })) ∧
    (∀ (f : FmtModel) (n : LogRecord), f.reifyFirst = false →
      (Backend.filter ⟨fun _ _ => true, none⟩) n.level n.target = true →
      Sys.allowUninit ⟨some "info", some ⟨fun _ _ => true, none⟩, false,
          fun i => if i = 0 then some ⟨"p-main", [], 0⟩ else none,
          fun _ => false, ["p-main"]⟩ = false →
      logRec ⟨Backend.filter ⟨fun _ _ => true, none⟩, some f⟩
        ⟨0, some "main", "ThreadId(1)"⟩
        ⟨some "info", some ⟨fun _ _ => true, none⟩, false,
          fun i => if i = 0 then some ⟨"p-main", [], 0⟩ else none,
          fun _ => false, ["p-main"]⟩
        (.mk .info "app" "outer" [n]) = .error doubleBorrowMsg) :=
  claim1_reentrant ⟨fun _ _ => true, none⟩ ⟨0, some "main", "ThreadId(1)"⟩
    ⟨some "info", some ⟨fun _ _ => true, none⟩, false,
      fun i => if i = 0 then some ⟨"p-main", [], 0⟩ else none,
      fun _ => false, ["p-main"]⟩
    .info "app" "outer" [.mk .info "app" "inner" []]
    rfl rfl rfl
    (by intro n hn; rw [List.mem_singleton] at hn; subst hn; rfl)
    rfl

/-! ### C4 — uninitialized threads -/

/-- C4: a thread with no bound sink that logs an enabled record panics with
the missing-writer `expect` message when `ALLOW_UNINITIALIZED` is unset;
when the flag is set it instead receives a sink created with an empty file
name part (named purely from its sanitized thread name or id) and the record
is written there. -/
theorem claim4_uninitialized_policy (b : Backend) (t : Thread) (s : Sys)
    (lvl : Level) (tgt txt : String)
    (hslot : s.slot = some b) (hfmt : b.formatter = none)
    (hw : s.writers t.tid = none) (hb : s.borrowed t.tid = false)
    (hen : b.filter lvl tgt = true) :
    (s.allowUninit = false →
      facadeLog t (.mk lvl tgt txt []) s = .error uninitMsg) ∧
    (s.allowUninit = true →
      ∃ s', facadeLog t (.mk lvl tgt txt []) s = .ok s' ∧
        s'.writers t.tid =
          some ⟨openFilePath t "", [writtenLine lvl txt ++ "\n"], 0⟩ ∧
        s'.filesCreated = s.filesCreated ++ [openFilePath t ""]) := by
  constructor
  · intro hau
    simp [facadeLog, hslot, logRec, hen, uninitBlock, hau, hfmt, logNested, hb, hw]
  · intro hau
    have hblock : uninitBlock t s = .ok (createWriter t "" s) := by
      rw [uninitBlock_of_none t s hw hb, if_pos hau]
    have hbc : (createWriter t "" s).borrowed t.tid = false := by
      rw [createWriter_borrowed]; exact hb
    have hwc : (createWriter t "" s).writers t.tid = some ⟨openFilePath t "", [], 0⟩ :=
      createWriter_writers_self t "" s
    refine ⟨writeLine t.tid (writtenLine lvl txt) (createWriter t "" s), ?_, ?_, ?_⟩
    · simp [facadeLog, hslot, logRec, hen, hblock, hfmt, logNested, hbc, hwc]
    · rw [writeLine_writers_self, hwc]
      simp
    · simp

/-- Witness for C4 at a concrete enabled record on a sink-less unnamed
thread, for both values of the flag (two states differing only in
`ALLOW_UNINITIALIZED`): the flag-off half panics, the flag-on half creates
the empty-name-part sink. -/
theorem claim4_witness :
    ((Sys.allowUninit ⟨some "info", some ⟨fun _ _ => true, none⟩, false,
        fun _ => none, fun _ => false, []⟩ = false →
      facadeLog ⟨7, none, "ThreadId(7)"⟩ (.mk .warn "app" "w" [])
        ⟨some "info", some ⟨fun _ _ => true, none⟩, false,
          fun _ => none, fun _ => false, []⟩ = .error uninitMsg) ∧
     (Sys.allowUninit ⟨some "info", some ⟨fun _ _ => true, none⟩, false,
        fun _ => none, fun _ => false, []⟩ = true →
      ∃ s', facadeLog ⟨7, none, "ThreadId(7)"⟩ (.mk .warn "app" "w" [])
          ⟨some "info", some ⟨fun _ _ => true, none⟩, false,
            fun _ => none, fun _ => false, []⟩ = .ok s' ∧
        s'.writers 7 =
          some ⟨openFilePath ⟨7, none, "ThreadId(7)"⟩ "", [writtenLine .warn "w" ++ "\n"], 0⟩ ∧
        s'.filesCreated = [] ++ [openFilePath ⟨7, none, "ThreadId(7)"⟩ ""])) ∧
    ((Sys.allowUninit ⟨some "info", some ⟨fun _ _ => true, none⟩, true,
        fun _ => none, fun _ => false, []⟩ = false →
      facadeLog ⟨7, none, "ThreadId(7)"⟩ (.mk .warn "app" "w" [])
        ⟨some "info", some ⟨fun _ _ => true, none⟩, true,
          fun _ => none, fun _ => false, []⟩ = .error uninitMsg) ∧
     (Sys.allowUninit ⟨some "info", some ⟨fun _ _ => true, none⟩, true,
        fun _ => none, fun _ => false, []⟩ = true →
      ∃ s', facadeLog ⟨7, none, "ThreadId(7)"⟩ (.mk .warn "app" "w" [])
          ⟨some "info", some ⟨fun _ _ => true, none⟩, true,
            fun _ => none, fun _ => false, []⟩ = .ok s' ∧
        s'.writers 7 =
          some ⟨openFilePath ⟨7, none, "ThreadId(7)"⟩ "", [writtenLine .warn "w" ++ "\n"], 0⟩ ∧
        s'.filesCreated = [] ++ [openFilePath ⟨7, none, "ThreadId(7)"⟩ ""])) :=
  ⟨claim4_uninitialized_policy ⟨fun _ _ => true, none⟩ ⟨7, none, "ThreadId(7)"⟩
      ⟨some "info", some ⟨fun _ _ => true, none⟩, false, fun _ => none, fun _ => false, []⟩
      .warn "app" "w" rfl rfl rfl rfl rfl,
   claim4_uninitialized_policy ⟨fun _ _ => true, none⟩ ⟨7, none, "ThreadId(7)"⟩
      ⟨some "info", some ⟨fun _ _ => true, none⟩, true, fun _ => none, fun _ => false, []⟩
      .warn "app" "w" rfl rfl rfl rfl rfl⟩

end FPTL

namespace FPTL

/-- A record with no nested log calls, through `log` with *any* installed
formatter, on a thread that has a writer and does not hold the borrow: the
call returns normally; the global slot, the environment, the flags, the
borrow map and the created-file list are untouched; other threads' writers
are untouched; and the calling thread's writer keeps its path and flushed
count, its lines at most extended. -/
lemma logRec_noNested_frame (b : Backend) (t : Thread) (s : Sys)
    (lvl : Level) (tgt txt : String)
    (hw : (s.writers t.tid).isSome) (hb : s.borrowed t.tid = false) :
    ∃ s', logRec b t s (.mk lvl tgt txt []) = .ok s' ∧
      s'.slot = s.slot ∧ s'.rustLog = s.rustLog ∧
      s'.allowUninit = s.allowUninit ∧ s'.borrowed = s.borrowed ∧
      s'.filesCreated = s.filesCreated ∧
      (∀ i, i ≠ t.tid → s'.writers i = s.writers i) ∧
      ∃ w w', s.writers t.tid = some w ∧ s'.writers t.tid = some w' ∧
        w'.path = w.path ∧ w'.flushedLen = w.flushedLen ∧
        ∃ u, w'.lines = w.lines ++ u := by
  obtain ⟨w, hw'⟩ := Option.isSome_iff_exists.mp hw
  cases hf : b.filter lvl tgt
  · exact ⟨s, by simp [logRec, hf], rfl, rfl, rfl, rfl, rfl, fun i _ => rfl,
      w, w, hw', hw', rfl, rfl, [], (List.append_nil _).symm⟩
  · have hblock := uninitBlock_of_isSome t s hw hb
    rcases hfm : b.formatter with _ | f
    · refine ⟨writeLine t.tid (writtenLine lvl txt) s,
        by simp [logRec, hf, hblock, hfm, logNested, hb, hw'], rfl, rfl, rfl, rfl, rfl,
        fun i hi => writeLine_writers_ne _ _ _ _ hi,
        w, { w with lines := w.lines ++ [writtenLine lvl txt ++ "\n"] }, hw', ?_, rfl, rfl,
        [writtenLine lvl txt ++ "\n"], rfl⟩
      rw [writeLine_writers_self, hw']
      rfl
    · cases hrf : f.reifyFirst
      · refine ⟨setBorrowed t.tid false
            (writeLine t.tid (f.render lvl txt) (setBorrowed t.tid true s)),
          by simp [logRec, hf, hblock, hfm, hrf, logNested, hb, hw', setBorrowed], ?_, rfl, rfl,
          ?_, rfl, ?_, w, { w with lines := w.lines ++ [f.render lvl txt ++ "\n"] },
          hw', ?_, rfl, rfl, [f.render lvl txt ++ "\n"], rfl⟩
        · rfl
        · funext i
          by_cases hi : i = t.tid
          · subst hi; simp [setBorrowed, hb]
          · simp [setBorrowed, hi]
        · intro i hi
          rw [setBorrowed_writers]
          rw [writeLine_writers_ne _ _ _ _ hi, setBorrowed_writers]
        · rw [setBorrowed_writers, writeLine_writers_self, setBorrowed_writers, hw']
          rfl
      · refine ⟨writeLine t.tid (f.render lvl txt) s,
          by simp [logRec, hf, hblock, hfm, hrf, logNested, hb, hw'], rfl, rfl, rfl, rfl, rfl,
          fun i hi => writeLine_writers_ne _ _ _ _ hi,
          w, { w with lines := w.lines ++ [f.render lvl txt ++ "\n"] }, hw', ?_, rfl, rfl,
          [f.render lvl txt ++ "\n"], rfl⟩
        rw [writeLine_writers_self, hw']
        rfl

end FPTL

namespace FPTL

/-- `init_logging` with a non-empty `RUST_LOG`: the call returns normally;
the slot is installed exactly when it was still empty, and kept verbatim
otherwise; the environment, the flag and the borrow map are unchanged; other
threads' writers are unchanged; and when the calling thread already had a
writer, no file is created and that writer keeps its path and flushed count,
its lines at most extended. -/
lemma initLogging_some (parse : String → Level → String → Bool) (t : Thread)
    (pfx : String) (fmt : Option FmtModel) (s : Sys) (dir : String)
    (henv : s.rustLog = some dir) (hb : s.borrowed t.tid = false) :
    ∃ s', initLogging parse t pfx fmt s = .ok s' ∧
      s'.slot = (if s.slot.isSome then s.slot else some ⟨parse dir, fmt⟩) ∧
      s'.rustLog = s.rustLog ∧ s'.allowUninit = s.allowUninit ∧
      s'.borrowed = s.borrowed ∧
      (∀ i, i ≠ t.tid → s'.writers i = s.writers i) ∧
      (∀ w, s.writers t.tid = some w →
        s'.filesCreated = s.filesCreated ∧
        ∃ w', s'.writers t.tid = some w' ∧ w'.path = w.path ∧
          w'.flushedLen = w.flushedLen ∧ ∃ u, w'.lines = w.lines ++ u) := by
  by_cases hws : (s.writers t.tid).isSome
  · rcases hsl : s.slot with _ | b0
    · -- writer present, slot empty: install, then banner through the new backend
      obtain ⟨s', h1, hslot', hrl, hau, hbor, hfc, hne, w0, w', hww, hw's, hpath, hfl, u, hu⟩ :=
        logRec_noNested_frame ⟨parse dir, fmt⟩ t { s with slot := some ⟨parse dir, fmt⟩ }
          .info "file_per_thread_logger" ("Set up logging; filename prefix is " ++ pfx)
          hws hb
      refine ⟨s', ?_, ?_, hrl, hau, hbor, hne, ?_⟩
      · simp [initLogging, henv, hb, hws, hsl, facadeLog, bannerRec, hslot'] at h1 ⊢
        exact h1
      · rw [hslot']
        simp [hsl]
      · intro w hw
        rw [hw] at hww
        cases hww
        exact ⟨hfc, w', hw's, hpath, hfl, u, hu⟩
    · -- writer present, slot taken: banner through the old backend
      obtain ⟨s', h1, hslot', hrl, hau, hbor, hfc, hne, w0, w', hww, hw's, hpath, hfl, u, hu⟩ :=
        logRec_noNested_frame b0 t s
          .info "file_per_thread_logger" ("Set up logging; filename prefix is " ++ pfx)
          hws hb
      refine ⟨s', ?_, ?_, hrl, hau, hbor, hne, ?_⟩
      · simp [initLogging, henv, hb, hws, hsl, facadeLog, bannerRec, hslot'] at h1 ⊢
        exact h1
      · rw [hslot']
        simp [hsl]
      · intro w hw
        rw [hw] at hww
        cases hww
        exact ⟨hfc, w', hw's, hpath, hfl, u, hu⟩
  · have hwn : s.writers t.tid = none := Option.not_isSome_iff_eq_none.mp hws
    have hwc : (createWriter t pfx s).writers t.tid = some ⟨openFilePath t pfx, [], 0⟩ :=
      createWriter_writers_self t pfx s
    have hwcS : ((createWriter t pfx s).writers t.tid).isSome := by
      rw [hwc]; rfl
    have hbc : (createWriter t pfx s).borrowed t.tid = false := by
      rw [createWriter_borrowed]; exact hb
    rcases hsl : s.slot with _ | b0
    · -- no writer, slot empty: create, install, banner through the new backend
      obtain ⟨s', h1, hslot', hrl, hau, hbor, hfc, hne, w0, w', hww, hw's, hpath, hfl, u, hu⟩ :=
        logRec_noNested_frame ⟨parse dir, fmt⟩ t
          { createWriter t pfx s with slot := some ⟨parse dir, fmt⟩ }
          .info "file_per_thread_logger" ("Set up logging; filename prefix is " ++ pfx)
          hwcS hbc
      refine ⟨s', ?_, ?_, ?_, ?_, ?_, ?_, ?_⟩
      · simp [initLogging, henv, hb, hws, hsl, facadeLog, bannerRec, hslot'] at h1 ⊢
        exact h1
      · rw [hslot']
        simp [hsl]
      · rw [hrl]
        simp [createWriter]
      · rw [hau]
        simp [createWriter]
      · rw [hbor]
        rfl
      · intro i hi
        rw [hne i hi]
        exact createWriter_writers_ne t pfx s i hi
      · intro w hw
        rw [hw] at hwn
        cases hwn
    · -- no writer, slot taken: create, keep the old backend, banner through it
      obtain ⟨s', h1, hslot', hrl, hau, hbor, hfc, hne, w0, w', hww, hw's, hpath, hfl, u, hu⟩ :=
        logRec_noNested_frame b0 t (createWriter t pfx s)
          .info "file_per_thread_logger" ("Set up logging; filename prefix is " ++ pfx)
          hwcS hbc
      refine ⟨s', ?_, ?_, ?_, ?_, ?_, ?_, ?_⟩
      · simp [initLogging, henv, hb, hws, hsl, facadeLog, bannerRec, hslot'] at h1 ⊢
        exact h1
      · rw [hslot']
        simp [createWriter, hsl]
      · rw [hrl]
        simp [createWriter]
      · rw [hau]
        simp [createWriter]
      · rw [hbor]
        rfl
      · intro i hi
        rw [hne i hi]
        exact createWriter_writers_ne t pfx s i hi
      · intro w hw
        rw [hw] at hwn
        cases hwn

end FPTL

namespace FPTL

/-! ### C2 — the global backend is installed exactly once -/

/-- C2: an `initialize`/`initialize_with_formatter` call that observes a
non-empty filter directive installs its backend exactly when the global slot
is still empty; any later call returns normally and leaves the installed
backend — its filter and its formatter — verbatim, touching (at most) the
calling thread's own sink binding and the uninitialized flag not at all. -/
theorem claim2_install_once (parse : String → Level → String → Bool)
    (t : Thread) (pfx : String) (fmt : Option FmtModel) (s : Sys) (dir : String)
    (henv : s.rustLog = some dir) (hb : s.borrowed t.tid = false) :
    ∃ s', initLogging parse t pfx fmt s = .ok s' ∧
      (s.slot = none → s'.slot = some ⟨parse dir, fmt⟩) ∧
      (∀ b0, s.slot = some b0 → s'.slot = some b0) ∧
      (∀ i, i ≠ t.tid → s'.writers i = s.writers i) ∧
      s'.allowUninit = s.allowUninit ∧ s'.rustLog = s.rustLog := by
  obtain ⟨s', h1, hslot, hrl, hau, _, hne, _⟩ :=
    initLogging_some parse t pfx fmt s dir henv hb
  refine ⟨s', h1, ?_, ?_, hne, hau, hrl⟩
  · intro h0
    rw [h0] at hslot
    simpa using hslot
  · intro b0 h0
    rw [h0] at hslot
    simpa using hslot

/-- Witness for C2: a first `initialize` on an empty slot and a second
`initialize` (different thread, different name part, different formatter)
against a taken slot. -/
theorem claim2_witness :
    (∃ s', initLogging (fun _ _ _ => true) ⟨0, some "main", "ThreadId(1)"⟩ "p-" none
        ⟨some "info", none, false, fun _ => none, fun _ => false, []⟩ = .ok s' ∧
      ((Sys.mk (some "info") none false (fun _ => none) (fun _ => false) []).slot = none →
        s'.slot = some ⟨(fun _ _ _ => true) "info", none⟩) ∧
      (∀ b0, (Sys.mk (some "info") none false (fun _ => none) (fun _ => false) []).slot = some b0 →
        s'.slot = some b0) ∧
      (∀ i, i ≠ 0 → s'.writers i = none) ∧
      s'.allowUninit = false ∧ s'.rustLog = some "info") ∧
    (∃ s', initLogging (fun _ _ _ => true) ⟨3, none, "ThreadId(3)"⟩ "q-"
        (some ⟨true, fun l tx => l.render ++ ":" ++ tx⟩)
        ⟨some "debug", some ⟨fun _ _ => false, none⟩, false,
          fun _ => none, fun _ => false, []⟩ = .ok s' ∧
      ((Sys.mk (some "debug") (some ⟨fun _ _ => false, none⟩) false
          (fun _ => none) (fun _ => false) []).slot = none →
        s'.slot = some ⟨(fun _ _ _ => true) "debug",
          some ⟨true, fun l tx => l.render ++ ":" ++ tx⟩⟩) ∧
      (∀ b0, (Sys.mk (some "debug") (some ⟨fun _ _ => false, none⟩) false
          (fun _ => none) (fun _ => false) []).slot = some b0 →
        s'.slot = some b0) ∧
      (∀ i, i ≠ 3 → s'.writers i = none) ∧
      s'.allowUninit = false ∧ s'.rustLog = some "debug") :=
  ⟨claim2_install_once (fun _ _ _ => true) ⟨0, some "main", "ThreadId(1)"⟩ "p-" none
      ⟨some "info", none, false, fun _ => none, fun _ => false, []⟩ "info" rfl rfl,
   claim2_install_once (fun _ _ _ => true) ⟨3, none, "ThreadId(3)"⟩ "q-"
      (some ⟨true, fun l tx => l.render ++ ":" ++ tx⟩)
      ⟨some "debug", some ⟨fun _ _ => false, none⟩, false,
        fun _ => none, fun _ => false, []⟩ "debug" rfl rfl⟩

/-! ### C5 — re-initialization is idempotent on the thread's slot -/

/-- C5: a second `initialize` (or `initialize_with_formatter`) on a thread
that already holds a sink, with logging enabled, creates no file at all and
neither truncates nor replaces the existing sink — whatever the name part
and formatter passed: the sink keeps its path and flushed count and its
lines are at most extended (by the banner). -/
theorem claim5_reinit_idempotent (parse : String → Level → String → Bool)
    (t : Thread) (pfx : String) (fmt : Option FmtModel) (s : Sys) (dir : String)
    (w : Writer) (henv : s.rustLog = some dir) (hb : s.borrowed t.tid = false)
    (hw : s.writers t.tid = some w) :
    ∃ s' w', initLogging parse t pfx fmt s = .ok s' ∧
      s'.filesCreated = s.filesCreated ∧
      s'.writers t.tid = some w' ∧ w'.path = w.path ∧
      w'.flushedLen = w.flushedLen ∧ ∃ u, w'.lines = w.lines ++ u := by
  obtain ⟨s', h1, _, _, _, _, _, hlast⟩ :=
    initLogging_some parse t pfx fmt s dir henv hb
  obtain ⟨hfc, w', hw's, hp, hf, u, hu⟩ := hlast w hw
  exact ⟨s', w', h1, hfc, hw's, hp, hf, u, hu⟩

/-- Witness for C5: a re-`initialize` with a *different* name part on a
thread already bound to a sink created under the old name part. -/
theorem claim5_witness :
    ∃ s' w', initLogging (fun _ _ _ => true) ⟨0, some "main", "ThreadId(1)"⟩ "other-" none
        ⟨some "info", some ⟨fun _ _ => true, none⟩, false,
          fun i => if i = 0 then some ⟨"p-main", ["INFO - old\n"], 1⟩ else none,
          fun _ => false, ["p-main"]⟩ = .ok s' ∧
      s'.filesCreated = ["p-main"] ∧
      s'.writers 0 = some w' ∧ w'.path = Writer.path ⟨"p-main", ["INFO - old\n"], 1⟩ ∧
      w'.flushedLen = Writer.flushedLen ⟨"p-main", ["INFO - old\n"], 1⟩ ∧
      ∃ u, w'.lines = Writer.lines ⟨"p-main", ["INFO - old\n"], 1⟩ ++ u :=
  claim5_reinit_idempotent (fun _ _ _ => true) ⟨0, some "main", "ThreadId(1)"⟩ "other-" none
    ⟨some "info", some ⟨fun _ _ => true, none⟩, false,
      fun i => if i = 0 then some ⟨"p-main", ["INFO - old\n"], 1⟩ else none,
      fun _ => false, ["p-main"]⟩ "info" ⟨"p-main", ["INFO - old\n"], 1⟩ rfl rfl rfl

/-! ### C8 — the banner file -/

/-- Counterexample to C8 as stated: an `initialize("p-")` call observing a
directive admitting INFO, on a thread with no prior sink, while a
custom-formatter backend is already installed: the banner goes through that
formatter, so the file's single line is the formatter's rendering, not the
claimed exact line `INFO - Set up logging; filename prefix is p-`. -/
theorem claim8_cex :
    (Sys.mk (some "info")
        (some ⟨fun _ _ => true, some ⟨true, fun l tx => l.render ++ "|" ++ tx⟩⟩)
        false (fun _ => none) (fun _ => false) []).writers 5 = none ∧
    (initLogging (fun _ _ _ => true) ⟨5, some "worker", "ThreadId(5)"⟩ "p-" none
        (Sys.mk (some "info")
          (some ⟨fun _ _ => true, some ⟨true, fun l tx => l.render ++ "|" ++ tx⟩⟩)
          false (fun _ => none) (fun _ => false) [])).map
        (fun s => (s.writers 5).map Writer.lines) =
      .ok (some ["INFO|Set up logging; filename prefix is p-\n"]) ∧
    (initLogging (fun _ _ _ => true) ⟨5, some "worker", "ThreadId(5)"⟩ "p-" none
        (Sys.mk (some "info")
          (some ⟨fun _ _ => true, some ⟨true, fun l tx => l.render ++ "|" ++ tx⟩⟩)
          false (fun _ => none) (fun _ => false) [])).map
        (fun s => (s.writers 5).map Writer.lines) ≠
      .ok (some ["INFO - Set up logging; filename prefix is p-\n"]) := by
  refine ⟨rfl, rfl, ?_⟩
  intro h
  rw [show (initLogging (fun _ _ _ => true) ⟨5, some "worker", "ThreadId(5)"⟩ "p-" none
        (Sys.mk (some "info")
          (some ⟨fun _ _ => true, some ⟨true, fun l tx => l.render ++ "|" ++ tx⟩⟩)
          false (fun _ => none) (fun _ => false) [])).map
        (fun s => (s.writers 5).map Writer.lines) =
      .ok (some ["INFO|Set up logging; filename prefix is p-\n"]) from rfl] at h
  simp at h

/-- C8 (amended): every `initialize(prefix)` call that observes a non-empty
directive, on a thread with no prior sink, creates the calling thread's file
within the call itself — before any record is logged by the application —
at the prefixed sanitized-name path, whatever backend is installed. When
the global slot is still empty and the directive admits INFO, or when the
installed backend uses the default formatter and its filter admits INFO,
the file moreover contains exactly the single banner line
`INFO - Set up logging; filename prefix is <prefix>`; under a previously
installed custom formatter the banner is that formatter's rendering
instead. -/
theorem claim8_banner_file (parse : String → Level → String → Bool)
    (t : Thread) (pfx : String) (s : Sys) (dir : String)
    (henv : s.rustLog = some dir) (hw : s.writers t.tid = none)
    (hb : s.borrowed t.tid = false) :
    (∃ s' w', initLogging parse t pfx none s = .ok s' ∧
       s'.writers t.tid = some w' ∧ w'.path = openFilePath t pfx ∧
       w'.flushedLen = 0 ∧
       s'.filesCreated = s.filesCreated ++ [openFilePath t pfx]) ∧
    (s.slot = none → parse dir .info "file_per_thread_logger" = true →
       ∃ s', initLogging parse t pfx none s = .ok s' ∧
         s'.writers t.tid = some ⟨openFilePath t pfx,
           ["INFO - Set up logging; filename prefix is " ++ pfx ++ "\n"], 0⟩ ∧
         s'.filesCreated = s.filesCreated ++ [openFilePath t pfx] ∧
         s'.slot = some ⟨parse dir, none⟩) ∧
    (∀ filt, s.slot = some ⟨filt, none⟩ →
       filt .info "file_per_thread_logger" = true →
       ∃ s', initLogging parse t pfx none s = .ok s' ∧
         s'.writers t.tid = some ⟨openFilePath t pfx,
           ["INFO - Set up logging; filename prefix is " ++ pfx ++ "\n"], 0⟩ ∧
         s'.filesCreated = s.filesCreated ++ [openFilePath t pfx] ∧
         s'.slot = s.slot) := by
  have hws : ¬ (s.writers t.tid).isSome = true := by simp [hw]
  have hwc0 : (createWriter t pfx s).writers t.tid =
      some ⟨openFilePath t pfx, [], 0⟩ := createWriter_writers_self t pfx s
  have hwcS : ((createWriter t pfx s).writers t.tid).isSome := by
    rw [hwc0]
    rfl
  have hbc : (createWriter t pfx s).borrowed t.tid = false := by
    rw [createWriter_borrowed]
    exact hb
  refine ⟨?_, ?_, ?_⟩
  · -- the file is created within the call, whatever the installed backend
    rcases hsl : s.slot with _ | b0
    · have hwcX : ({ createWriter t pfx s with
          slot := some (⟨parse dir, none⟩ : Backend) } : Sys).writers t.tid =
          some ⟨openFilePath t pfx, [], 0⟩ := createWriter_writers_self t pfx s
      obtain ⟨s', h1, hslot', hrl, hau, hbor, hfc, hne, w0, w', hww, hw's, hpath, hfl, u, hu⟩ :=
        logRec_noNested_frame ⟨parse dir, none⟩ t
          { createWriter t pfx s with slot := some (⟨parse dir, none⟩ : Backend) }
          .info "file_per_thread_logger" ("Set up logging; filename prefix is " ++ pfx)
          hwcS hbc
      have hw0 : w0 = ⟨openFilePath t pfx, [], 0⟩ :=
        (Option.some.inj (hwcX.symm.trans hww)).symm
      refine ⟨s', w', ?_, hw's, ?_, ?_, ?_⟩
      · simp [initLogging, henv, hb, hws, hsl, facadeLog, bannerRec, hslot'] at h1 ⊢
        exact h1
      · rw [hpath, hw0]
      · rw [hfl, hw0]
      · rw [hfc]
        exact createWriter_filesCreated t pfx s
    · obtain ⟨s', h1, hslot', hrl, hau, hbor, hfc, hne, w0, w', hww, hw's, hpath, hfl, u, hu⟩ :=
        logRec_noNested_frame b0 t (createWriter t pfx s)
          .info "file_per_thread_logger" ("Set up logging; filename prefix is " ++ pfx)
          hwcS hbc
      have hw0 : w0 = ⟨openFilePath t pfx, [], 0⟩ :=
        (Option.some.inj (hwc0.symm.trans hww)).symm
      refine ⟨s', w', ?_, hw's, ?_, ?_, ?_⟩
      · simp [initLogging, henv, hb, hws, hsl, facadeLog, bannerRec, hslot'] at h1 ⊢
        exact h1
      · rw [hpath, hw0]
      · rw [hfl, hw0]
      · rw [hfc]
        exact createWriter_filesCreated t pfx s
  · -- empty slot, directive admitting INFO: exactly the banner line
    intro hslot hinfo
    have hwc : ({ createWriter t pfx s with
        slot := some (⟨parse dir, none⟩ : Backend) } : Sys).writers t.tid =
        some ⟨openFilePath t pfx, [], 0⟩ := createWriter_writers_self t pfx s
    have hstep := logRec_flat_default ⟨parse dir, none⟩ t
      { createWriter t pfx s with slot := some (⟨parse dir, none⟩ : Backend) }
      .info "file_per_thread_logger" ("Set up logging; filename prefix is " ++ pfx)
      rfl (by rw [hwc]; rfl) hb
    simp only [hinfo, if_true] at hstep
    refine ⟨writeLine t.tid (writtenLine .info ("Set up logging; filename prefix is " ++ pfx))
      { createWriter t pfx s with slot := some (⟨parse dir, none⟩ : Backend) }, ?_, ?_, ?_, ?_⟩
    · simp only [createWriter, henv] at hstep
      simp [initLogging, henv, hb, hws, hslot, facadeLog, bannerRec, createWriter, hstep]
    · rw [writeLine_writers_self, hwc]
      simp [writtenLine, Level.render, ← String.append_assoc]
    · simp [writeLine_filesCreated]
    · simp [writeLine_slot]
  · -- default-formatter backend already installed, filter admitting INFO
    intro filt hsl hinfo
    have hstep := logRec_flat_default ⟨filt, none⟩ t (createWriter t pfx s)
      .info "file_per_thread_logger" ("Set up logging; filename prefix is " ++ pfx)
      rfl hwcS hbc
    simp only [hinfo, if_true] at hstep
    refine ⟨writeLine t.tid (writtenLine .info ("Set up logging; filename prefix is " ++ pfx))
      (createWriter t pfx s), ?_, ?_, ?_, ?_⟩
    · simp only [createWriter, henv, hsl] at hstep
      simp [initLogging, henv, hb, hws, hsl, facadeLog, bannerRec, createWriter, hstep]
    · rw [writeLine_writers_self, hwc0]
      simp [writtenLine, Level.render, ← String.append_assoc]
    · simp [writeLine_filesCreated]
    · simp [writeLine_slot]

/-- Witness for C8 (amended): the later-thread scenario the repository's
test exercises — a "helper" thread initializing after the main thread
installed the default-formatter backend, its file containing exactly the
banner — and a concrete first `initialize("p-")` on an empty slot. -/
theorem claim8_witness :
    (∃ s', initLogging (fun _ _ _ => true) ⟨2, some "helper", "ThreadId(3)"⟩ "p-" none
        ⟨some "info", some ⟨fun _ _ => true, none⟩, false, fun _ => none,
          fun _ => false, ["p-tests"]⟩ = .ok s' ∧
      s'.writers 2 = some ⟨openFilePath ⟨2, some "helper", "ThreadId(3)"⟩ "p-",
        ["INFO - Set up logging; filename prefix is " ++ "p-" ++ "\n"], 0⟩ ∧
      s'.filesCreated = ["p-tests"] ++ [openFilePath ⟨2, some "helper", "ThreadId(3)"⟩ "p-"] ∧
      s'.slot = some ⟨fun _ _ => true, none⟩) ∧
    (∃ s', initLogging (fun _ l _ => decide (l = Level.info))
        ⟨0, some "tests", "ThreadId(1)"⟩ "p-" none
        ⟨some "info", none, false, fun _ => none, fun _ => false, []⟩ = .ok s' ∧
      s'.writers 0 = some ⟨openFilePath ⟨0, some "tests", "ThreadId(1)"⟩ "p-",
        ["INFO - Set up logging; filename prefix is " ++ "p-" ++ "\n"], 0⟩ ∧
      s'.filesCreated = [] ++ [openFilePath ⟨0, some "tests", "ThreadId(1)"⟩ "p-"] ∧
      s'.slot = some ⟨(fun _ l _ => decide (l = Level.info)) "info", none⟩) :=
  ⟨(claim8_banner_file (fun _ _ _ => true) ⟨2, some "helper", "ThreadId(3)"⟩ "p-"
      ⟨some "info", some ⟨fun _ _ => true, none⟩, false, fun _ => none,
        fun _ => false, ["p-tests"]⟩ "info" rfl rfl rfl).2.2
      (fun _ _ => true) rfl rfl,
   (claim8_banner_file (fun _ l _ => decide (l = Level.info))
      ⟨0, some "tests", "ThreadId(1)"⟩ "p-"
      ⟨some "info", none, false, fun _ => none, fun _ => false, []⟩ "info"
      rfl rfl rfl).2.1 rfl rfl⟩

end FPTL

namespace FPTL

/-! ### C6 — per-thread file contents -/

/-- Of a trace of emissions, the newline-terminated lines that end up in
thread `tid`'s file: exactly the records emitted on that thread that the
installed filter admits, in emission order, rendered by the default
formatter. -/
def eventLines (b : Backend) (tid : Nat) : List (Thread × LogRecord) → List String
  | [] => []
  | (t, r) :: rest =>
    if t.tid = tid ∧ b.filter r.level r.target then
      (writtenLine r.level r.text ++ "\n") :: eventLines b tid rest
    else eventLines b tid rest

/-- C6: running a trace of emissions through the facade with the default
formatter installed, each emitting thread holding a writer, every thread's
file gains exactly the admitted records emitted *on that thread*, rendered
as `"<LEVEL> - <message>\n"`, in emission order — and no line from any
other thread (threads absent from the trace keep their files verbatim). -/
theorem claim6_per_thread_contents (b : Backend) (events : List (Thread × LogRecord))
    (hfmt : b.formatter = none) :
    ∀ s : Sys, s.slot = some b →
      (∀ e ∈ events, ((s.writers (Prod.fst e).tid).isSome ∧
        s.borrowed (Prod.fst e).tid = false ∧ (Prod.snd e).nested = [])) →
      ∃ s', runTrace events s = .ok s' ∧
        ∀ tid, s'.writers tid = (s.writers tid).map
          (fun w => { w with lines := w.lines ++ eventLines b tid events }) := by
  induction events with
  | nil =>
    intro s hslot hev
    refine ⟨s, rfl, fun tid => ?_⟩
    cases h : s.writers tid <;> simp [eventLines]
  | cons e rest ih =>
    intro s hslot hev
    obtain ⟨t, r⟩ := e
    obtain ⟨nl, ntg, ntx, nns⟩ := r
    obtain ⟨hw, hb, hnest⟩ := hev _ (List.mem_cons_self _ _)
    simp only [LogRecord.nested_mk] at hnest
    subst hnest
    have hstep := logRec_flat_default b t s nl ntg ntx hfmt hw hb
    cases hf : b.filter nl ntg
    · rw [hf] at hstep
      simp at hstep
      obtain ⟨s', h1, h2⟩ := ih s hslot
        (fun e he => hev e (List.mem_cons_of_mem _ he))
      refine ⟨s', ?_, fun tid => ?_⟩
      · simp [runTrace, facadeLog, hslot, hstep, h1]
      · rw [h2 tid]
        cases hwt : s.writers tid <;> simp [eventLines, hf, hwt]
    · rw [hf] at hstep
      simp at hstep
      set s1 := writeLine t.tid (writtenLine nl ntx) s with hs1
      have hslot1 : s1.slot = some b := by rw [hs1, writeLine_slot]; exact hslot
      have hev1 : ∀ e ∈ rest, ((s1.writers (Prod.fst e).tid).isSome ∧
          s1.borrowed (Prod.fst e).tid = false ∧ (Prod.snd e).nested = []) := by
        intro e he
        obtain ⟨h1', h2', h3'⟩ := hev e (List.mem_cons_of_mem _ he)
        refine ⟨?_, ?_, h3'⟩
        · rw [hs1, writeLine_writers_isSome]
          exact h1'
        · rw [hs1, writeLine_borrowed]
          exact h2'
      obtain ⟨s', h1, h2⟩ := ih s1 hslot1 hev1
      refine ⟨s', ?_, fun tid => ?_⟩
      · simp [runTrace, facadeLog, hslot, hstep, h1]
      · rw [h2 tid]
        by_cases hi : t.tid = tid
        · subst hi
          cases hwt : s.writers t.tid <;>
            simp [hs1, writeLine_writers_self, hwt, eventLines, hf, List.append_assoc]
        · have hwi : s1.writers tid = s.writers tid := by
            rw [hs1]
            exact writeLine_writers_ne _ _ _ _ (fun hh => hi hh.symm)
          rw [hwi]
          cases hwt : s.writers tid <;> simp [eventLines, hf, hwt, hi]

/-- Witness for C6: two named threads interleaving four records (one of
them filtered out) against a debug-rejecting filter, each starting from an
empty file. -/
theorem claim6_witness :
    ∃ s', runTrace
        [(⟨0, some "a", "ThreadId(1)"⟩, .mk .info "app" "a1" []),
         (⟨1, some "b", "ThreadId(2)"⟩, .mk .debug "app" "b1" []),
         (⟨0, some "a", "ThreadId(1)"⟩, .mk .warn "app" "a2" []),
         (⟨1, some "b", "ThreadId(2)"⟩, .mk .error "app" "b2" [])]
        ⟨some "info", some ⟨fun l _ => !decide (l = Level.debug), none⟩, false,
          fun i => if i = 0 then some ⟨"p-a", [], 0⟩
                   else if i = 1 then some ⟨"p-b", [], 0⟩ else none,
          fun _ => false, ["p-a", "p-b"]⟩ = .ok s' ∧
      ∀ tid, s'.writers tid =
        ((⟨some "info", some ⟨fun l _ => !decide (l = Level.debug), none⟩, false,
          fun i => if i = 0 then some ⟨"p-a", [], 0⟩
                   else if i = 1 then some ⟨"p-b", [], 0⟩ else none,
          fun _ => false, ["p-a", "p-b"]⟩ : Sys).writers tid).map
          (fun w => { w with
            lines := w.lines ++
              eventLines (⟨fun l _ => !decide (l = Level.debug), none⟩ : Backend) tid
                [(⟨0, some "a", "ThreadId(1)"⟩, .mk .info "app" "a1" []),
                 (⟨1, some "b", "ThreadId(2)"⟩, .mk .debug "app" "b1" []),
                 (⟨0, some "a", "ThreadId(1)"⟩, .mk .warn "app" "a2" []),
                 (⟨1, some "b", "ThreadId(2)"⟩, .mk .error "app" "b2" [])] }) :=
  claim6_per_thread_contents ⟨fun l _ => !decide (l = Level.debug), none⟩
    [(⟨0, some "a", "ThreadId(1)"⟩, .mk .info "app" "a1" []),
     (⟨1, some "b", "ThreadId(2)"⟩, .mk .debug "app" "b1" []),
     (⟨0, some "a", "ThreadId(1)"⟩, .mk .warn "app" "a2" []),
     (⟨1, some "b", "ThreadId(2)"⟩, .mk .error "app" "b2" [])] rfl
    ⟨some "info", some ⟨fun l _ => !decide (l = Level.debug), none⟩, false,
      fun i => if i = 0 then some ⟨"p-a", [], 0⟩
               else if i = 1 then some ⟨"p-b", [], 0⟩ else none,
      fun _ => false, ["p-a", "p-b"]⟩ rfl
    (by intro e he; fin_cases he <;> exact ⟨rfl, rfl, rfl⟩)

end FPTL
